import Mathlib

/-!
Verification of `start_server.py`, the no-cache static-file HTTP server of the
hexagrid repository.  The program is embedded shallowly: each run of the
program is summarised by the list of externally visible effects it performs
(directory change, prints, socket bind, browser launch, serve loop, listener
close, process exit) together with a final outcome (exited with a status,
blocked forever in the accept loop, or terminated by an uncaught exception).
The request handler override `end_headers` is embedded as a function on the
buffered header list of a response.
-/

/-- Kind of a filesystem entry in the serving directory: a regular file or a
directory.  `os.path.exists` does not distinguish the two. -/
inductive EntryKind where
  | file
  | dir
  deriving DecidableEq

/-- The part of the world the script observes: the directory containing the
script itself (`os.path.dirname(os.path.abspath(__file__))`), the named
filesystem entries of that directory, and whether the requested TCP port is
already bound by another process. -/
structure World where
  scriptDir : String
  entries : List (String × EntryKind)
  portBusy : Bool
  deriving DecidableEq

/-- Externally visible effects of a run of the program, in order. -/
inductive Effect where
  | chdir (dir : String)
  | print (msg : String)
  | exit (code : Nat)
  | bind (host : String) (port : Int)
  | browserOpen (url : String)
  | serveForever
  | closeListener
  deriving DecidableEq

/-- Final outcome of a run: normal process exit with a status code, blocking
forever in the accept loop, or an exception propagating uncaught out of the
program. -/
inductive Outcome where
  | exited (code : Nat)
  | blocked
  | uncaught (exn : String)
  deriving DecidableEq

/-- Model of `os.path.exists(name)` against the entries of the current
directory: true when some entry of any kind has that name. -/
def path_exists (entries : List (String × EntryKind)) (name : String) : Bool :=
  entries.any fun e => e.1 = name

/-- The three response headers sent by the `end_headers` override, in the
order the code sends them. -/
def noCacheHeaders : List (String × String) :=
  [("Cache-Control", "no-cache, no-store, must-revalidate"),
   ("Pragma", "no-cache"),
   ("Expires", "0")]

/-- `NoCacheHTTPRequestHandler.end_headers`: sends the three no-cache headers
with `send_header` (which appends to the buffered header list of the response)
and then delegates to the library flush `super().end_headers()`, which writes
out every buffered header followed by the blank line.  `end_headers buf` is
the header list the flush writes on the wire when the buffer held `buf` at the
moment the hook ran. -/
def end_headers (buf : List (String × String)) : List (String × String) :=
  buf ++ noCacheHeaders

/-- An HTTP response: status code and the header list flushed on the wire. -/
structure Response where
  status : Nat
  headers : List (String × String)
  deriving DecidableEq

/-- Library dispatch for a GET request, modelled from the Python standard
library `http.server.SimpleHTTPRequestHandler` (not part of this repository):
for an existing path it sends status 200 with its usual file headers, for a
missing path `send_error` sends the standard not-found status 404 with its
error headers; either way the response headers are flushed through the
handler hook `end_headers`, which the class above overrides. -/
def handle_request (entries : List (String × EntryKind)) (path : String) :
    Response :=
  if path_exists entries path then
    { status := 200
      headers := end_headers [("Content-type", "text/html"),
                              ("Content-Length", "0")] }
  else
    { status := 404
      headers := end_headers [("Content-type", "text/html;charset=utf-8"),
                              ("Connection", "close")] }

/-- Message printed when `index.html` is missing (first line). -/
def errMsg1 : String := "Error: index.html not found in the current directory!"

/-- Message printed when `index.html` is missing (second line); after the
initial `os.chdir` the current directory is the script directory. -/
def errMsg2 (cwd : String) : String := "Current directory: " ++ cwd

/-- Message printed when `index.html` is missing (third line). -/
def errMsg3 : String :=
  "Please run this script from the directory containing index.html"

/-- The URL opened in the browser. -/
def localhostUrl (port : Int) : String := "http://localhost:" ++ toString port

/-- First startup print. -/
def startMsg1 (port : Int) : String :=
  "Starting server on port " ++ (toString port ++ "...")

/-- Second startup print; `os.getcwd()` is the script directory here. -/
def startMsg2 (cwd : String) : String := "Serving from directory: " ++ cwd

/-- Third startup print. -/
def startMsg3 (port : Int) : String :=
  "Open your browser and navigate to: " ++ localhostUrl port

/-- Fourth startup print. -/
def startMsg4 : String := "Press Ctrl+C to stop the server"

/-- Message printed by the `KeyboardInterrupt` handler. -/
def shutdownMsg : String := "\nServer stopped."

/-- The effects `start_server` performs before entering the `try` block, on
the path determined by the world: `os.chdir` to the script directory first,
then either the three error prints and `sys.exit(1)` when `index.html` is
missing, or only the `chdir` when constructing `HTTPServer` raises because the
port is busy, or the bind and the four startup prints on the success path. -/
def preTryTrace (w : World) (port : Int) : List Effect :=
  if path_exists w.entries "index.html" then
    if w.portBusy then
      [Effect.chdir w.scriptDir]
    else
      [Effect.chdir w.scriptDir,
       Effect.bind "" port,
       Effect.print (startMsg1 port),
       Effect.print (startMsg2 w.scriptDir),
       Effect.print (startMsg3 port),
       Effect.print startMsg4]
  else
    [Effect.chdir w.scriptDir,
     Effect.print errMsg1,
     Effect.print (errMsg2 w.scriptDir),
     Effect.print errMsg3,
     Effect.exit 1]

/-- A complete run of `start_server` without an interrupt before the `try`
block.  `interrupted` tells whether a `KeyboardInterrupt` is raised inside the
`try` block (during `webbrowser.open` or `httpd.serve_forever()`): the
handler then prints the shutdown message, closes the listener and exits with
status 0.  Without an interrupt the success path blocks forever in
`serve_forever`.  A busy port makes the `HTTPServer` constructor raise
`OSError`, which no handler in the program catches. -/
def serverRun (w : World) (port : Int) (interrupted : Bool) :
    List Effect × Outcome :=
  if path_exists w.entries "index.html" then
    if w.portBusy then
      (preTryTrace w port, Outcome.uncaught "OSError")
    else if interrupted then
      (preTryTrace w port ++
        [Effect.browserOpen (localhostUrl port),
         Effect.serveForever,
         Effect.print shutdownMsg,
         Effect.closeListener,
         Effect.exit 0],
       Outcome.exited 0)
    else
      (preTryTrace w port ++
        [Effect.browserOpen (localhostUrl port),
         Effect.serveForever],
       Outcome.blocked)
  else
    (preTryTrace w port, Outcome.exited 1)

/-- When (if ever) a `KeyboardInterrupt` is delivered to the process:
never, after exactly `k` of the pre-`try` startup effects have been performed
(so outside any `try` block), or while the `try` block is running (during the
browser launch or the serve loop). -/
inductive Interrupt where
  | never
  | duringStartup (k : Nat)
  | duringServe
  deriving DecidableEq

/-- `start_server(port)`: the trace of effects and the outcome, given the
world and the interrupt scenario.  An interrupt after `k` pre-`try` effects
truncates the run there and propagates uncaught, since the only
`except KeyboardInterrupt` in the program encloses just the browser launch
and the serve loop; an interrupt scheduled past the end of the pre-`try`
effects of the taken path never fires before the `try`, so the run proceeds
normally. -/
def start_server (w : World) (port : Int) (intr : Interrupt) :
    List Effect × Outcome :=
  match intr with
  | Interrupt.never => serverRun w port false
  | Interrupt.duringServe => serverRun w port true
  | Interrupt.duringStartup k =>
    if k < (preTryTrace w port).length then
      ((preTryTrace w port).take k, Outcome.uncaught "KeyboardInterrupt")
    else
      serverRun w port false

/-- Model of Python whitespace as stripped by `str` conversion in `int()`
(ASCII portion). -/
def pyIsSpace (c : Char) : Bool :=
  c = ' ' || c = '\t' || c = '\n' || c = '\r' || c = '\x0b' || c = '\x0c'

/-- Strip leading and trailing whitespace, as `int()` does to its argument. -/
def pyStrip (cs : List Char) : List Char :=
  ((cs.dropWhile pyIsSpace).reverse.dropWhile pyIsSpace).reverse

/-- Digit run of a Python base-10 integer literal after the first digit:
decimal digits, with single underscores allowed between digits. -/
def pyDigitsAux (acc : Nat) : List Char → Option Nat
  | [] => some acc
  | c :: cs =>
    if c.isDigit then pyDigitsAux (10 * acc + (c.toNat - 48)) cs
    else if c = '_' then
      match cs with
      | [] => none
      | d :: cs2 =>
        if d.isDigit then pyDigitsAux (10 * acc + (d.toNat - 48)) cs2
        else none
    else none

/-- Unsigned digit string: nonempty, starting with a digit. -/
def pyUnsigned : List Char → Option Nat
  | [] => none
  | c :: cs => if c.isDigit then pyDigitsAux (c.toNat - 48) cs else none

/-- Model of Python `int(s)` in base 10: strip whitespace, optional sign,
then a nonempty digit string (underscores permitted between digits).
`none` models the `ValueError` caught in the `__main__` block. -/
def pyInt (s : String) : Option Int :=
  match pyStrip s.toList with
  | '+' :: rest => (pyUnsigned rest).map Int.ofNat
  | '-' :: rest => (pyUnsigned rest).map fun n => -(n : Int)
  | cs => (pyUnsigned cs).map Int.ofNat

/-- The `if __name__ == "__main__"` block: port defaults to 8000; when a
first command-line argument is present it is parsed with `int`, a
`ValueError` prints the invalid value and exits with status 1, otherwise
`start_server(port)` runs.  `argv` is the full `sys.argv`, program name
included. -/
def pyMain (w : World) (argv : List String) (intr : Interrupt) :
    List Effect × Outcome :=
  match argv with
  | _prog :: arg :: _ =>
    match pyInt arg with
    | some p => start_server w p intr
    | none =>
      ([Effect.print ("Invalid port number: " ++ arg), Effect.exit 1],
       Outcome.exited 1)
  | _ => start_server w 8000 intr

/-- Sample serving directory used in concrete witnesses. -/
def sampleDir : String := "/srv/hexagrid"

/-- World with a regular `index.html`, free port. -/
def wOk : World :=
  { scriptDir := sampleDir
    entries := [("index.html", EntryKind.file), ("game.js", EntryKind.file)]
    portBusy := false }

/-- World with no entry named `index.html`. -/
def wMissing : World :=
  { scriptDir := sampleDir
    entries := [("game.js", EntryKind.file)]
    portBusy := false }

/-- World where `index.html` is a directory, free port. -/
def wDirIndex : World :=
  { scriptDir := sampleDir
    entries := [("index.html", EntryKind.dir)]
    portBusy := false }

/-- World with `index.html` present but the port already bound. -/
def wBusy : World :=
  { scriptDir := sampleDir
    entries := [("index.html", EntryKind.file)]
    portBusy := true }

example : pyInt "8000" = some 8000 := by decide
example : pyInt "abc" = none := by decide
example : pyInt " -42 " = some (-42) := by decide
example : pyInt "1_0" = some 10 := by decide
example : pyInt "_1" = none := by decide
example : pyInt "1_" = none := by decide
example : pyInt "" = none := by decide
example : pyInt "+7" = some 7 := by decide
example :
    (start_server wOk 8000 Interrupt.never).2 = Outcome.blocked := by decide
example :
    (start_server wMissing 8000 Interrupt.never).2 = Outcome.exited 1 := by
  decide

/-- A string strictly shorter than `pre` differs from `pre ++ s`. -/
theorem ne_append_of_length_lt (pre s t : String) (h : t.length < pre.length) :
    t ≠ pre ++ s := by
  intro he
  have hl : t.length = pre.length + s.length := by
    rw [he, String.length_append]
  omega

/-- Claim C1: every HTTP response the server produces, the not-found response
for a missing path included, carries the headers
`Cache-Control: no-cache, no-store, must-revalidate`, `Pragma: no-cache` and
`Expires: 0`: the `end_headers` hook injects them into whatever header buffer
reaches it before the flush runs, and a request for a missing path gets the
standard not-found status 404, still through that hook. -/
theorem every_response_has_no_cache_headers
    (buf : List (String × String)) (entries : List (String × EntryKind))
    (path : String) :
    (∀ hdr ∈ noCacheHeaders, hdr ∈ end_headers buf) ∧
    (∀ hdr ∈ noCacheHeaders, hdr ∈ (handle_request entries path).headers) ∧
    (path_exists entries path = false →
      (handle_request entries path).status = 404) := by
  refine ⟨?_, ?_, ?_⟩
  · intro hdr hh
    exact List.mem_append_right _ hh
  · intro hdr hh
    unfold handle_request
    split <;> exact List.mem_append_right _ hh
  · intro hmiss
    simp [handle_request, hmiss]

/-- Witness for C1 at a concrete missing path. -/
theorem every_response_has_no_cache_headers_witness :
    ("Pragma", "no-cache") ∈
      (handle_request wMissing.entries "nope.html").headers ∧
    (handle_request wMissing.entries "nope.html").status = 404 :=
  ⟨(every_response_has_no_cache_headers [] wMissing.entries "nope.html").2.1
      ("Pragma", "no-cache") (by decide),
   (every_response_has_no_cache_headers [] wMissing.entries "nope.html").2.2
      (by decide)⟩

/-- Claim C2: with no entry named `index.html` in the serving directory,
the run prints the diagnostic naming the expected file and the current
directory and exits with status 1; no bind effect and no serve loop ever
appears in the trace, so no listener is created. -/
theorem missing_index_exits_before_bind (w : World) (p : Int)
    (h : path_exists w.entries "index.html" = false) :
    (start_server w p Interrupt.never).2 = Outcome.exited 1 ∧
    Effect.print errMsg1 ∈ (start_server w p Interrupt.never).1 ∧
    Effect.print (errMsg2 w.scriptDir) ∈ (start_server w p Interrupt.never).1 ∧
    (∀ host q, Effect.bind host q ∉ (start_server w p Interrupt.never).1) ∧
    Effect.serveForever ∉ (start_server w p Interrupt.never).1 := by
  simp [start_server, serverRun, preTryTrace, h]

/-- Witness for C2 at a concrete world without `index.html`. -/
theorem missing_index_exits_before_bind_witness :
    (start_server wMissing 8000 Interrupt.never).2 = Outcome.exited 1 ∧
    Effect.print (errMsg2 wMissing.scriptDir) ∈
      (start_server wMissing 8000 Interrupt.never).1 :=
  ⟨(missing_index_exits_before_bind wMissing 8000 (by decide)).1,
   (missing_index_exits_before_bind wMissing 8000 (by decide)).2.2.1⟩

/-- Claim C3: a command-line argument that does not parse as an integer makes
the process print a message carrying the invalid value and exit with status 1;
no bind effect appears, so the server never starts. -/
theorem invalid_port_argument_exits (w : World) (prog s : String)
    (rest : List String) (intr : Interrupt) (h : pyInt s = none) :
    pyMain w (prog :: s :: rest) intr =
      ([Effect.print ("Invalid port number: " ++ s), Effect.exit 1],
       Outcome.exited 1) ∧
    ∀ host q, Effect.bind host q ∉ (pyMain w (prog :: s :: rest) intr).1 := by
  simp [pyMain, h]

/-- Witness for C3 at the concrete argument string "abc". -/
theorem invalid_port_argument_exits_witness :
    pyMain wOk ["start_server.py", "abc"] Interrupt.never =
      ([Effect.print ("Invalid port number: " ++ "abc"), Effect.exit 1],
       Outcome.exited 1) :=
  (invalid_port_argument_exits wOk "start_server.py" "abc" [] Interrupt.never
    (by decide)).1

/-- Claim C5: invoked with no command-line argument the program runs
`start_server` at port 8000, and on a satisfiable world the bound listener
address is `("", 8000)`. -/
theorem no_argument_default_port_8000 (w : World) (prog : String)
    (intr : Interrupt) :
    pyMain w [prog] intr = start_server w 8000 intr ∧
    (path_exists w.entries "index.html" = true → w.portBusy = false →
      Effect.bind "" 8000 ∈ (pyMain w [prog] Interrupt.never).1) := by
  refine ⟨rfl, ?_⟩
  intro h1 h2
  simp [pyMain, start_server, serverRun, preTryTrace, h1, h2]

/-- Witness for C5 at a concrete satisfiable world. -/
theorem no_argument_default_port_8000_witness :
    pyMain wOk ["start_server.py"] Interrupt.never =
      start_server wOk 8000 Interrupt.never ∧
    Effect.bind "" 8000 ∈ (pyMain wOk ["start_server.py"] Interrupt.never).1 :=
  ⟨(no_argument_default_port_8000 wOk "start_server.py" Interrupt.never).1,
   (no_argument_default_port_8000 wOk "start_server.py" Interrupt.never).2
      (by decide) (by decide)⟩

/-- Claim C4: an interrupt received while the server is serving takes the
graceful path: the trace ends with the shutdown print, the listener close and
an exit effect with status 0, and the outcome is a normal exit with status 0,
not an error. -/
theorem interrupt_while_serving_graceful_shutdown (w : World) (p : Int)
    (h1 : path_exists w.entries "index.html" = true)
    (h2 : w.portBusy = false) :
    (start_server w p Interrupt.duringServe).1 =
      preTryTrace w p ++
        [Effect.browserOpen (localhostUrl p), Effect.serveForever,
         Effect.print shutdownMsg, Effect.closeListener, Effect.exit 0] ∧
    (start_server w p Interrupt.duringServe).2 = Outcome.exited 0 := by
  simp [start_server, serverRun, h1, h2]

/-- Witness for C4 at a concrete serving world. -/
theorem interrupt_while_serving_graceful_shutdown_witness :
    (start_server wOk 8000 Interrupt.duringServe).2 = Outcome.exited 0 :=
  (interrupt_while_serving_graceful_shutdown wOk 8000 (by decide)
    (by decide)).2

/-- Claim C6: the very first effect of every run of `start_server` is the
change of working directory to the script directory, so it precedes the
`index.html` check and any bind; any bind effect sits strictly later in the
trace, and the directory announced as the serving directory is the script
directory. -/
theorem chdir_first_effect (w : World) (p : Int) :
    (start_server w p Interrupt.never).1.head? =
      some (Effect.chdir w.scriptDir) ∧
    (∀ i host q,
      (start_server w p Interrupt.never).1[i]? = some (Effect.bind host q) →
      1 ≤ i) ∧
    (path_exists w.entries "index.html" = true → w.portBusy = false →
      Effect.print (startMsg2 w.scriptDir) ∈
        (start_server w p Interrupt.never).1) := by
  refine ⟨?_, ?_, ?_⟩
  · cases hex : path_exists w.entries "index.html" <;> cases hb : w.portBusy <;>
      simp [start_server, serverRun, preTryTrace, hex, hb]
  · intro i host q hi
    rcases i with _ | i
    · exfalso
      cases hex : path_exists w.entries "index.html" <;>
        cases hb : w.portBusy <;>
        simp [start_server, serverRun, preTryTrace, hex, hb] at hi
    · omega
  · intro h1 h2
    simp [start_server, serverRun, preTryTrace, h1, h2]

/-- Witness for C6 at a concrete world. -/
theorem chdir_first_effect_witness :
    (start_server wOk 8000 Interrupt.never).1.head? =
      some (Effect.chdir wOk.scriptDir) ∧
    Effect.print (startMsg2 wOk.scriptDir) ∈
      (start_server wOk 8000 Interrupt.never).1 :=
  ⟨(chdir_first_effect wOk 8000).1,
   (chdir_first_effect wOk 8000).2.2 (by decide) (by decide)⟩

/-- Claim C7: on a world satisfying the preconditions, the uninterrupted run
is exactly: chdir, bind on `("", port)`, the four startup prints, browser
launch at `http://localhost:<port>`, and the serve loop, in that order, and
the run blocks forever in the serve loop. -/
theorem successful_startup_bind_browser_serve (w : World) (p : Int)
    (h1 : path_exists w.entries "index.html" = true)
    (h2 : w.portBusy = false) :
    start_server w p Interrupt.never =
      ([Effect.chdir w.scriptDir,
        Effect.bind "" p,
        Effect.print (startMsg1 p),
        Effect.print (startMsg2 w.scriptDir),
        Effect.print (startMsg3 p),
        Effect.print startMsg4,
        Effect.browserOpen (localhostUrl p),
        Effect.serveForever], Outcome.blocked) := by
  simp [start_server, serverRun, preTryTrace, h1, h2]

/-- Witness for C7 at a concrete world and port. -/
theorem successful_startup_bind_browser_serve_witness :
    start_server wOk 8000 Interrupt.never =
      ([Effect.chdir wOk.scriptDir,
        Effect.bind "" 8000,
        Effect.print (startMsg1 8000),
        Effect.print (startMsg2 wOk.scriptDir),
        Effect.print (startMsg3 8000),
        Effect.print startMsg4,
        Effect.browserOpen (localhostUrl 8000),
        Effect.serveForever], Outcome.blocked) :=
  successful_startup_bind_browser_serve wOk 8000 (by decide) (by decide)

/-- Claim C8: when the port is already bound the `HTTPServer` constructor
raises and nothing in the program catches it: the run ends with an uncaught
`OSError`, never with a normal exit, and none of the dedicated error or
shutdown prints appears. -/
theorem busy_port_propagates_uncaught (w : World) (p : Int)
    (h1 : path_exists w.entries "index.html" = true)
    (h2 : w.portBusy = true) :
    start_server w p Interrupt.never =
      ([Effect.chdir w.scriptDir], Outcome.uncaught "OSError") ∧
    (∀ c, (start_server w p Interrupt.never).2 ≠ Outcome.exited c) ∧
    Effect.print shutdownMsg ∉ (start_server w p Interrupt.never).1 := by
  simp [start_server, serverRun, preTryTrace, h1, h2]

/-- Witness for C8 at a concrete busy-port world. -/
theorem busy_port_propagates_uncaught_witness :
    start_server wBusy 8000 Interrupt.never =
      ([Effect.chdir wBusy.scriptDir], Outcome.uncaught "OSError") :=
  (busy_port_propagates_uncaught wBusy 8000 (by decide) (by decide)).1

/-- Claim C9: the startup check tests only that some filesystem entry of any
kind carries the name `index.html`; the fatal branch (exit status 1) is taken
exactly when no such entry exists, and a directory named `index.html` lets
the listener start. -/
theorem index_check_is_existence_only (w : World) (p : Int) :
    (path_exists w.entries "index.html" = true ↔
      ∃ k, ("index.html", k) ∈ w.entries) ∧
    ((start_server w p Interrupt.never).2 = Outcome.exited 1 ↔
      path_exists w.entries "index.html" = false) ∧
    (("index.html", EntryKind.dir) ∈ w.entries → w.portBusy = false →
      Effect.bind "" p ∈ (start_server w p Interrupt.never).1) := by
  refine ⟨?_, ?_, ?_⟩
  · simp only [path_exists, List.any_eq_true, decide_eq_true_eq]
    constructor
    · rintro ⟨⟨n, k⟩, hm, rfl⟩
      exact ⟨k, hm⟩
    · rintro ⟨k, hm⟩
      exact ⟨("index.html", k), hm, rfl⟩
  · cases hex : path_exists w.entries "index.html" <;>
      cases hb : w.portBusy <;>
      simp [start_server, serverRun, preTryTrace, hex, hb]
  · intro hm hb
    have hex : path_exists w.entries "index.html" = true := by
      simp only [path_exists, List.any_eq_true, decide_eq_true_eq]
      exact ⟨("index.html", EntryKind.dir), hm, rfl⟩
    simp [start_server, serverRun, preTryTrace, hex, hb]

/-- Witness for C9: a directory entry named `index.html` lets the bind
happen. -/
theorem index_check_is_existence_only_witness :
    Effect.bind "" 8000 ∈ (start_server wDirIndex 8000 Interrupt.never).1 :=
  (index_check_is_existence_only wDirIndex 8000).2.2 (by decide) (by decide)

/-- No pre-`try` effect prints the shutdown message: the startup and error
prints all differ from it. -/
theorem shutdown_print_not_in_preTry (w : World) (p : Int) :
    Effect.print shutdownMsg ∉ preTryTrace w p := by
  have h1 : shutdownMsg ≠ startMsg1 p :=
    ne_append_of_length_lt "Starting server on port " (toString p ++ "...")
      shutdownMsg (by decide)
  have h2 : shutdownMsg ≠ startMsg2 w.scriptDir :=
    ne_append_of_length_lt "Serving from directory: " w.scriptDir
      shutdownMsg (by decide)
  have h3 : shutdownMsg ≠ startMsg3 p :=
    ne_append_of_length_lt "Open your browser and navigate to: "
      (localhostUrl p) shutdownMsg (by decide)
  have h4 : shutdownMsg ≠ startMsg4 := by decide
  have h5 : shutdownMsg ≠ errMsg1 := by decide
  have h6 : shutdownMsg ≠ errMsg2 w.scriptDir :=
    ne_append_of_length_lt "Current directory: " w.scriptDir
      shutdownMsg (by decide)
  have h7 : shutdownMsg ≠ errMsg3 := by decide
  unfold preTryTrace
  split
  · split
    · simp
    · simp [h1, h2, h3, h4]
  · simp [h5, h6, h7]

/-- No pre-`try` effect closes the listener. -/
theorem closeListener_not_in_preTry (w : World) (p : Int) :
    Effect.closeListener ∉ preTryTrace w p := by
  unfold preTryTrace
  split
  · split <;> simp
  · simp

/-- Claim C10: a `KeyboardInterrupt` delivered after `k` pre-`try` startup
effects (directory change, check, bind, startup prints) is not caught: the
run truncates there with the interrupt propagating uncaught, the shutdown
message is never printed, the listener close of the handler never runs, and
the outcome is not a status-0 exit. -/
theorem early_interrupt_not_caught (w : World) (p : Int) (k : Nat)
    (hk : k < (preTryTrace w p).length) :
    start_server w p (Interrupt.duringStartup k) =
      ((preTryTrace w p).take k, Outcome.uncaught "KeyboardInterrupt") ∧
    Effect.print shutdownMsg ∉
      (start_server w p (Interrupt.duringStartup k)).1 ∧
    Effect.closeListener ∉
      (start_server w p (Interrupt.duringStartup k)).1 ∧
    (start_server w p (Interrupt.duringStartup k)).2 ≠ Outcome.exited 0 := by
  have heq : start_server w p (Interrupt.duringStartup k) =
      ((preTryTrace w p).take k, Outcome.uncaught "KeyboardInterrupt") := by
    simp [start_server, hk]
  refine ⟨heq, ?_, ?_, ?_⟩
  · rw [heq]
    intro hmem
    exact shutdown_print_not_in_preTry w p (List.take_subset k _ hmem)
  · rw [heq]
    intro hmem
    exact closeListener_not_in_preTry w p (List.take_subset k _ hmem)
  · rw [heq]
    simp

/-- Witness for C10: interrupt after three startup effects at a concrete
world. -/
theorem early_interrupt_not_caught_witness :
    start_server wOk 8000 (Interrupt.duringStartup 3) =
      ((preTryTrace wOk 8000).take 3, Outcome.uncaught "KeyboardInterrupt") ∧
    (start_server wOk 8000 (Interrupt.duringStartup 3)).2 ≠
      Outcome.exited 0 :=
  ⟨(early_interrupt_not_caught wOk 8000 3 (by decide)).1,
   (early_interrupt_not_caught wOk 8000 3 (by decide)).2.2.2⟩
